import Mathlib

/-!
Verification development for the KYC document validator
(`validators.py`: class `DocumentValidator`).

The validator consumes an extraction result (status, document type,
essential fields, metadata) and produces either a skip sentinel (when the
extraction status is not "success") or a validation report aggregating a
list of `ValidationResult` outcomes.

This file shallowly embeds the validator: Python dicts of field values
become association lists, `datetime` values become proleptic day ordinals,
`datetime.now()` becomes an explicit `Instant` parameter, and Python
exceptions are ruled out by construction (all embedded functions are total;
`datetime.strptime` failure is modelled as `Option.none`, matching the
`(False, None)` sentinel in `_validate_date`).
-/

namespace KYC

/-! ## Python string primitives

`str.strip()` / `str.split()` with no arguments operate on Python's
whitespace set.  We model the whitespace predicate over the Unicode
whitespace code points recognised by `str.isspace` (which is also the set
matched by the regex class `\s` for `str` patterns). -/

/-- Python whitespace predicate (the `str.isspace` / regex `\s` set). -/
def pyIsSpace (c : Char) : Bool :=
  let n := c.toNat
  (9 ≤ n && n ≤ 13) || (28 ≤ n && n ≤ 31) || n = 32 || n = 133 || n = 160 ||
  n = 5760 || (8192 ≤ n && n ≤ 8202) || n = 8232 || n = 8233 || n = 8239 ||
  n = 8287 || n = 12288

/-- Python `str.strip()`: remove leading and trailing whitespace. -/
def pyStrip (s : String) : String :=
  ⟨((s.data.dropWhile pyIsSpace).reverse.dropWhile pyIsSpace).reverse⟩

/-- Helper for `pySplit`: accumulate the current word (reversed) while
scanning the character list. -/
def pySplitAux : List Char → List Char → List String
  | [], acc => if acc.isEmpty then [] else [⟨acc.reverse⟩]
  | c :: cs, acc =>
    if pyIsSpace c then
      if acc.isEmpty then pySplitAux cs []
      else (⟨acc.reverse⟩ : String) :: pySplitAux cs []
    else pySplitAux cs (c :: acc)

/-- Python `str.split()` with no argument: split on whitespace runs,
discarding empty pieces. -/
def pySplit (s : String) : List String := pySplitAux s.data []

/-- First code points of the non-ASCII Unicode Nd decimal-digit runs
(each run is ten consecutive code points with digit values 0-9).  Table
generated from the Unicode character database of CPython 3.11
(Unicode 14.0); interpreter builds with an older database lack only the
last few exotic ranges. -/
def ndRuns : List Nat :=
  [1632, 1776, 1984, 2406, 2534, 2662, 2790, 2918,
   3046, 3174, 3302, 3430, 3558, 3664, 3792, 3872,
   4160, 4240, 6112, 6160, 6470, 6608, 6784, 6800,
   6992, 7088, 7232, 7248, 42528, 43216, 43264, 43472,
   43504, 43600, 44016, 65296, 66720, 68912, 69734, 69872,
   69942, 70096, 70384, 70736, 70864, 71248, 71360, 71472,
   71904, 72016, 72784, 73040, 73120, 92768, 92864, 93008,
   120782, 120792, 120802, 120812, 120822, 123200, 123632, 125264,
   130032]

/-- Decimal-digit lookup for the non-ASCII Nd ranges: `some v` when code
point `n` is a decimal digit of value `v`. -/
def ndTail (n : Nat) : Option Nat :=
  (ndRuns.find? (fun s => s ≤ n && n ≤ s + 9)).map (fun s => n - s)

/-- The regex class `\d` on `str` patterns: every Unicode decimal digit
(category Nd) — the ASCII range plus the `ndTail` table. -/
def isDig (c : Char) : Bool :=
  if c.toNat ≤ 57 then decide (48 ≤ c.toNat) else (ndTail c.toNat).isSome

/-- The decimal value of a digit character, as computed by `int()` on the
matched field (0 for non-digits, which never reach a value position). -/
def dv (c : Char) : Nat :=
  if c.toNat ≤ 57 then c.toNat - 48 else (ndTail c.toNat).getD 0

/-! ## Calendar model

Python `datetime` objects produced by `strptime(s, "%Y-%m-%d")` are
midnight datetimes of proleptic-Gregorian dates.  We model such a date by
its components, and comparisons / day differences via the proleptic
ordinal (`datetime.date.toordinal` semantics: 0001-01-01 has ordinal 1). -/

structure PDate where
  year : Nat
  month : Nat
  day : Nat
  deriving DecidableEq, Repr

/-- Gregorian leap-year test (as used by `datetime`). -/
def isLeap (y : Nat) : Bool := y % 4 = 0 && (y % 100 ≠ 0 || y % 400 = 0)

/-- Number of days in a month of a given year. -/
def daysInMonth (y m : Nat) : Nat :=
  if m = 1 then 31
  else if m = 2 then (if isLeap y then 29 else 28)
  else if m = 3 then 31
  else if m = 4 then 30
  else if m = 5 then 31
  else if m = 6 then 30
  else if m = 7 then 31
  else if m = 8 then 31
  else if m = 9 then 30
  else if m = 10 then 31
  else if m = 11 then 30
  else 31

/-- Days in all years strictly before year `y` (y ≥ 1). -/
def daysBeforeYear (y : Nat) : Nat :=
  365 * (y - 1) + (y - 1) / 4 - (y - 1) / 100 + (y - 1) / 400

/-- Days in the months of year `y` strictly before month `m`. -/
def daysBeforeMonth (y m : Nat) : Nat :=
  (if m > 1 then 31 else 0) +
  (if m > 2 then (if isLeap y then 29 else 28) else 0) +
  (if m > 3 then 31 else 0) +
  (if m > 4 then 30 else 0) +
  (if m > 5 then 31 else 0) +
  (if m > 6 then 30 else 0) +
  (if m > 7 then 31 else 0) +
  (if m > 8 then 31 else 0) +
  (if m > 9 then 30 else 0) +
  (if m > 10 then 31 else 0) +
  (if m > 11 then 30 else 0)

/-- Proleptic-Gregorian ordinal of a date (`date.toordinal`):
0001-01-01 ↦ 1.  Chronological comparison of the midnight datetimes
returned by `strptime` coincides with comparison of ordinals. -/
def toOrdinal (d : PDate) : Nat :=
  daysBeforeYear d.year + daysBeforeMonth d.year d.month + d.day

/-! ## `_validate_date`: CPython `strptime(date_str, "%Y-%m-%d")`

CPython's `_strptime` compiles the format into the regex
`(?P<Y>\d\d\d\d)\-(?P<m>1[0-2]|0[1-9]|[1-9])\-(?P<d>3[01]|[12]\d|0[1-9]|[1-9])`,
matches it at the start of the input (`match`, not `fullmatch`), raises
`ValueError` when unconverted characters remain (without retrying other
alternation branches — the regex engine returns the first overall match in
alternation-priority order), and then builds `datetime(year, month, day)`,
which raises `ValueError` for year 0 or a day beyond the month length.
`_validate_date` catches those errors and returns `(False, None)`.

Alternation is modelled by trying branches in priority order.  Backtracking
into a shorter month branch after the following literal `-` fails cannot
produce a different outcome: the two-character month branches only fire
when the second character is a digit, which the one-character fallback
would then require to be `-` — impossible.  The day group is last in the
pattern, so no backtracking can follow it. -/

/-- The month group `1[0-2]|0[1-9]|[1-9]`, in alternation-priority order.
Character comparisons are on code points: 45 is `-`, 48–57 are `0`–`9`,
so e.g. `c1.toNat = 49` reads "the character is `1`". -/
def parseMonth : List Char → Option (Nat × List Char)
  | c1 :: c2 :: rest =>
    if c1.toNat = 49 ∧ 48 ≤ c2.toNat ∧ c2.toNat ≤ 50 then
      some (10 + (c2.toNat - 48), rest)
    else if c1.toNat = 48 ∧ 49 ≤ c2.toNat ∧ c2.toNat ≤ 57 then
      some (c2.toNat - 48, rest)
    else if 49 ≤ c1.toNat ∧ c1.toNat ≤ 57 then some (c1.toNat - 48, c2 :: rest)
    else none
  | [c1] =>
    if 49 ≤ c1.toNat ∧ c1.toNat ≤ 57 then some (c1.toNat - 48, []) else none
  | [] => none

/-- The day group `3[01]|[12]\d|0[1-9]|[1-9]`, in alternation-priority
order. -/
def parseDay : List Char → Option (Nat × List Char)
  | c1 :: c2 :: rest =>
    if c1.toNat = 51 ∧ (c2.toNat = 48 ∨ c2.toNat = 49) then
      some (30 + (c2.toNat - 48), rest)
    else if (c1.toNat = 49 ∨ c1.toNat = 50) ∧ isDig c2 then
      some (10 * (c1.toNat - 48) + dv c2, rest)
    else if c1.toNat = 48 ∧ 49 ≤ c2.toNat ∧ c2.toNat ≤ 57 then
      some (c2.toNat - 48, rest)
    else if 49 ≤ c1.toNat ∧ c1.toNat ≤ 57 then some (c1.toNat - 48, c2 :: rest)
    else none
  | [c1] =>
    if 49 ≤ c1.toNat ∧ c1.toNat ≤ 57 then some (c1.toNat - 48, []) else none
  | [] => none

/-- The month-dash-day tail of the strptime regex, applied after the
4-digit year and the first dash, followed by the no-leftover check and
the `datetime(year, month, day)` construction. -/
def parseMD (y : Nat) (rest : List Char) : Option PDate :=
  match parseMonth rest with
  | some (m, rest2) =>
    match rest2 with
    | h2 :: rest3 =>
      if h2.toNat = 45 then
        match parseDay rest3 with
        | some (d, rest4) =>
          if rest4 = [] then
            if 1 ≤ y ∧ d ≤ daysInMonth y m then some ⟨y, m, d⟩ else none
          else none
        | none => none
      else none
    | [] => none
  | none => none

/-- `DocumentValidator._validate_date`: `none` models the `(False, None)`
sentinel, `some d` models `(True, datetime(d))`. -/
def validate_date (s : String) : Option PDate :=
  match s.data with
  | y1 :: y2 :: y3 :: y4 :: h :: rest =>
    if isDig y1 ∧ isDig y2 ∧ isDig y3 ∧ isDig y4 ∧ h.toNat = 45 then
      parseMD (1000 * dv y1 + 100 * dv y2 + 10 * dv y3 + dv y4) rest
    else none
  | _ => none

/-! ## Data model -/

/-- One extracted field: `{"value": ..., "confidence": ...}`.  The
validator reads only `value`; `confidence` is never consulted, so it is
not carried in the embedding. -/
structure FieldValue where
  value : String
  deriving DecidableEq, Repr

/-- A Python dict of field name ↦ FieldValue (`essential_fields`,
`metadata`).  Keys are unique in a Python dict; lookup takes the first
binding. -/
abbrev Fields := List (String × FieldValue)

/-- `d.get(key, {}).get("value", "")`: empty string when the key is
absent. -/
def getValueD (fs : Fields) (k : String) : String :=
  match fs.find? (fun p => p.1 == k) with
  | some p => p.2.value
  | none => ""

/-- `key in d` (used via `d.get(key)` dict truthiness in
`_validate_other_id`; a present key always maps to a non-empty
`{"value": ...}` dict, hence is truthy). -/
def hasKey (fs : Fields) (k : String) : Bool :=
  (fs.find? (fun p => p.1 == k)).isSome

/-- The extraction-pipeline result consumed by `validate`. -/
structure ExtractionResult where
  status : String
  document_type : Option String
  essential_fields : Fields
  metadata : Fields

/-- A `ValidationResult` (`to_dict` form is identical field-for-field). -/
structure ValidationResult where
  test_name : String
  passed : Bool
  message : String
  severity : String
  deriving DecidableEq, Repr

/-- The wall-clock instant `datetime.now()`: the proleptic ordinal of the
current date plus the time of day in microseconds. -/
structure Instant where
  day : Nat
  tod : Nat
  tod_lt : tod < 86400000000

/-- `dob_date < datetime.now()` where `dob_date` is a midnight datetime:
earlier day, or same day with a non-zero time of day. -/
def midnightLtNow (ord : Nat) (now : Instant) : Bool :=
  ord < now.day || (ord = now.day && 0 < now.tod)

/-- `(datetime.now() - dob_date).days` for a midnight `dob_date`: the
time-of-day component only contributes the (non-negative, < 1 day)
fractional part of the timedelta, so `.days` is the day-ordinal
difference. -/
def daysFromNow (now : Instant) (ord : Nat) : Int :=
  (now.day : Int) - (ord : Int)

/-- `int(age)` where `age = days / 365.25` is computed in floating point:
truncation toward zero of the exact rational `4*days/1461`.  (The double
rounding of `days / 365.25` cannot change the truncated integer: the
rational is at least `1/1461` away from any non-attained integer, and is
attained exactly — with an exact double result, since `365.25` is a dyadic
rational — when `1461 ∣ 4*days`.) -/
def truncDiv36525 (days : Int) : Int :=
  if 0 ≤ days then ((4 * days.toNat) / 1461 : Nat)
  else -(((4 * (-days).toNat) / 1461 : Nat) : Int)

/-- `f"{days / 365.25:.1f}"`: one-decimal fixed-point rendering of the
exact rational `4*days/1461`.  Ties (`x.x5`) are impossible — they would
need `80*days ≡ 0 (mod 1461)` with an odd quotient, but `1461` is odd and
`80*days` even — and the double value of `days / 365.25` lies on the same
side of every rounding boundary as the exact rational, so round-half-even
on the double agrees with nearest-rounding of the rational. -/
def fmt365Div1dp (days : Int) : String :=
  let n := 40 * days.natAbs
  let r := (2 * n + 1461) / 2922
  (if days < 0 then "-" else "") ++ toString (r / 10) ++ "." ++ toString (r % 10)

/-- `DocumentValidator.VALID_COUNTRIES`. -/
def VALID_COUNTRIES : List String :=
  ["USA", "US", "UNITED STATES", "UNITED STATES OF AMERICA",
   "UK", "GB", "UNITED KINGDOM", "GREAT BRITAIN",
   "CANADA", "CA", "CAN", "AUSTRALIA", "AU", "AUS",
   "INDIA", "IN", "IND", "CHINA", "CN", "CHN", "JAPAN", "JP", "JPN",
   "GERMANY", "DE", "DEU", "FRANCE", "FR", "FRA", "ITALY", "IT", "ITA",
   "SPAIN", "ES", "ESP", "MEXICO", "MX", "MEX", "BRAZIL", "BR", "BRA",
   "RUSSIA", "RU", "RUS", "SOUTH AFRICA", "ZA", "ZAF"]

-- The source also defines `DocumentValidator.US_STATES`, but no code path
-- of the validator reads it, so it is not embedded.

/-- Python `str.upper()`, modelled by its ASCII action.  Full `upper()`
also maps non-ASCII letters (including one-to-many special cases such as
ß → SS, which changes `cleanAlnum` lengths and the country-membership
test's input).  No claim is decided by this: the allow-list entries are
pure ASCII, and the count/severity/name shape of the passport- and
license-number and country checks is the same on both branches, so only
message text and the pass flag of those unclaimed checks could differ. -/
def pyUpper (s : String) : String := ⟨s.data.map Char.toUpper⟩

/-- `re.sub(r"[^A-Z0-9]", "", s.upper())`: uppercase, then keep only
ASCII capital letters and digits. -/
def cleanAlnum (s : String) : String :=
  ⟨(pyUpper s).data.filter (fun c =>
    (65 ≤ c.toNat && c.toNat ≤ 90) || (48 ≤ c.toNat && c.toNat ≤ 57))⟩

/-! ## Height / weight format regexes

`re.search(pattern, s, re.IGNORECASE)` truthiness: does any position of
`s` start a match of the pattern?  Each pattern is a sequence of
character-class repetitions whose classes (digits, whitespace, specific
letters) are pairwise disjoint, so maximal-munch scanning is equivalent to
the backtracking regex engine for match existence.

`\d` is the full Unicode Nd class (`isDig`).  Under non-ASCII
`re.IGNORECASE`, a lowercase pattern letter matches every code point
whose simple lowercase mapping is that letter, plus sre's equivalence
fixups: for the letters used here that adds İ (U+0130, code point 304)
and ı (U+0131, 305) to `i`, and the Kelvin sign (U+212A, 8490) to `k`;
the other letters (f t n c m l b g) match only their ASCII case pair. -/

/-- The apostrophe character `'`. -/
def aposChar : Char := Char.ofNat 39

/-- The double-quote character. -/
def quotChar : Char := Char.ofNat 34

/-- A match of `\d+'\s*\d+"` starting at the head of `cs`. -/
def matchFeetInches (cs : List Char) : Bool :=
  match cs with
  | c :: _ =>
    isDig c &&
    (match cs.dropWhile isDig with
     | q :: r2 =>
       q = aposChar &&
       (let r3 := r2.dropWhile pyIsSpace
        match r3 with
        | d :: _ =>
          isDig d &&
          (match r3.dropWhile isDig with
           | qq :: _ => qq = quotChar
           | [] => false)
        | [] => false)
     | [] => false)
  | [] => false

/-- A match of `\d+\s*ft\s*\d*\s*in` (case-insensitive) starting at the
head of `cs`. -/
def matchFtIn (cs : List Char) : Bool :=
  match cs with
  | c :: _ =>
    isDig c &&
    (match (cs.dropWhile isDig).dropWhile pyIsSpace with
     | f :: t :: r2 =>
       (f.toNat = 102 || f.toNat = 70) && (t.toNat = 116 || t.toNat = 84) &&
       (match ((r2.dropWhile pyIsSpace).dropWhile isDig).dropWhile pyIsSpace with
        | i :: n :: _ =>
          (i.toNat = 105 || i.toNat = 73 || i.toNat = 304 || i.toNat = 305) &&
          (n.toNat = 110 || n.toNat = 78)
        | _ => false)
     | _ => false)
  | [] => false

/-- A match of `\d+\s*cm` (case-insensitive) starting at the head. -/
def matchCm (cs : List Char) : Bool :=
  match cs with
  | c :: _ =>
    isDig c &&
    (match (cs.dropWhile isDig).dropWhile pyIsSpace with
     | a :: b :: _ =>
       (a.toNat = 99 || a.toNat = 67) && (b.toNat = 109 || b.toNat = 77)
     | _ => false)
  | [] => false

/-- A match of `\d+\s*lbs?` (case-insensitive) starting at the head; the
optional trailing `s` cannot affect match existence. -/
def matchLbs (cs : List Char) : Bool :=
  match cs with
  | c :: _ =>
    isDig c &&
    (match (cs.dropWhile isDig).dropWhile pyIsSpace with
     | a :: b :: _ =>
       (a.toNat = 108 || a.toNat = 76) && (b.toNat = 98 || b.toNat = 66)
     | _ => false)
  | [] => false

/-- A match of `\d+\s*kg` (case-insensitive) starting at the head. -/
def matchKg (cs : List Char) : Bool :=
  match cs with
  | c :: _ =>
    isDig c &&
    (match (cs.dropWhile isDig).dropWhile pyIsSpace with
     | a :: b :: _ =>
       (a.toNat = 107 || a.toNat = 75 || a.toNat = 8490) &&
       (b.toNat = 103 || b.toNat = 71)
     | _ => false)
  | [] => false

/-- `re.search` truthiness: some suffix starts a match. -/
def reSearch (p : List Char → Bool) (s : String) : Bool :=
  s.data.tails.any p

/-- `any(re.search(pattern, height, re.IGNORECASE) for pattern in
height_patterns)`. -/
def heightMatches (s : String) : Bool :=
  reSearch matchFeetInches s || reSearch matchFtIn s || reSearch matchCm s

/-- `any(re.search(pattern, weight, re.IGNORECASE) for pattern in
weight_patterns)`. -/
def weightMatches (s : String) : Bool :=
  reSearch matchLbs s || reSearch matchKg s

/-! ## The validation checks

`_add_result(name, passed, message)` defaults `severity` to `"error"`;
each constructor call below spells the severity that the Python call
produces.  Each helper below is one contiguous block of the corresponding
Python method; the method's result list is the concatenation of its
blocks, in source order. -/

/-- `_validate_essential_fields`, full-name block
(validators.py lines 262-291). -/
def checkFullName (essential_fields : Fields) : List ValidationResult :=
  let full_name := pyStrip (getValueD essential_fields "full_name")
  if full_name ≠ "" then
    ValidationResult.mk "essential_fields.full_name.present" true
      s!"Full name is present: {full_name}" "error" ::
    (let name_parts := pySplit full_name
     if name_parts.length ≥ 2 then
       [ValidationResult.mk "essential_fields.full_name.format" true
          "Name has at least first and last name" "error"]
     else
       let n := name_parts.length
       [ValidationResult.mk "essential_fields.full_name.format" false
          s!"Name may be incomplete - only {n} part(s) found" "warning"])
  else
    [ValidationResult.mk "essential_fields.full_name.present" false
       "Full name is missing or empty" "error"]

/-- `_validate_essential_fields`, date-of-birth block (lines 293-343).
The age bound `1 <= days/365.25 <= 150` is equivalent to
`366 ≤ days ≤ 54787` (the float boundaries `365.25` and `54787.5` are not
integers, and the double quotient lies on the same side of 1 and 150 as
the exact rational). -/
def checkDOB (now : Instant) (essential_fields : Fields) : List ValidationResult :=
  let dob := getValueD essential_fields "date_of_birth"
  if dob ≠ "" then
    match validate_date dob with
    | some dob_date =>
      let ord := toOrdinal dob_date
      ValidationResult.mk "essential_fields.date_of_birth.format" true
        s!"Date of birth is in valid format: {dob}" "error" ::
      (if midnightLtNow ord now then
         [ValidationResult.mk "essential_fields.date_of_birth.past" true
            "Date of birth is in the past" "error"]
       else
         [ValidationResult.mk "essential_fields.date_of_birth.past" false
            "Date of birth is in the future - invalid" "error"]) ++
      (let days := daysFromNow now ord
       let age := truncDiv36525 days
       if 366 ≤ days ∧ days ≤ 54787 then
         [ValidationResult.mk "essential_fields.date_of_birth.reasonable" true
            s!"Age is reasonable: ~{age} years" "error"]
       else
         [ValidationResult.mk "essential_fields.date_of_birth.reasonable" false
            s!"Age seems unreasonable: ~{age} years" "error"])
    | none =>
      [ValidationResult.mk "essential_fields.date_of_birth.format" false
         s!"Date of birth format is invalid: {dob}" "error"]
  else
    [ValidationResult.mk "essential_fields.date_of_birth.present" false
       "Date of birth is missing" "error"]

/-- `_validate_essential_fields`, sex block (lines 345-359). -/
def checkSex (essential_fields : Fields) : List ValidationResult :=
  let sex := getValueD essential_fields "sex"
  if sex = "M" ∨ sex = "F" ∨ sex = "X" then
    [ValidationResult.mk "essential_fields.sex.valid" true
       s!"Sex is valid: {sex}" "error"]
  else if sex ≠ "" then
    [ValidationResult.mk "essential_fields.sex.valid" false
       s!"Sex value is invalid: {sex} (expected M, F, or X)" "warning"]
  else
    [ValidationResult.mk "essential_fields.sex.present" false
       "Sex is missing" "warning"]

/-- `DocumentValidator._validate_essential_fields`. -/
def validate_essential_fields (now : Instant) (essential_fields : Fields) :
    List ValidationResult :=
  checkFullName essential_fields ++ checkDOB now essential_fields ++
    checkSex essential_fields

/-- `_validate_passport`, passport-number block (lines 366-387). -/
def checkPassportNumber (metadata : Fields) : List ValidationResult :=
  let passport_num := getValueD metadata "passport_number"
  if passport_num ≠ "" then
    let len := (cleanAlnum passport_num).length
    if 6 ≤ len ∧ len ≤ 15 then
      [ValidationResult.mk "passport.passport_number.length" true
         s!"Passport number length is valid: {len} characters" "error"]
    else
      [ValidationResult.mk "passport.passport_number.length" false
         s!"Passport number length is unusual: {len} characters (expected 6-15)"
         "warning"]
  else
    [ValidationResult.mk "passport.passport_number.present" false
       "Passport number is missing" "error"]

/-- `_validate_passport`, country-of-issue block (lines 389-410). -/
def checkCountryOfIssue (metadata : Fields) : List ValidationResult :=
  let country := getValueD metadata "country_of_issue"
  if country ≠ "" then
    if VALID_COUNTRIES.contains (pyUpper country) then
      [ValidationResult.mk "passport.country_of_issue.valid" true
         s!"Country of issue is valid: {country}" "error"]
    else
      [ValidationResult.mk "passport.country_of_issue.valid" false
         s!"Country of issue may be invalid or unrecognized: {country}" "warning"]
  else
    [ValidationResult.mk "passport.country_of_issue.present" false
       "Country of issue is missing" "error"]

/-- `_validate_passport`, nationality block (lines 412-427): absent
nationality emits nothing. -/
def checkNationality (metadata : Fields) : List ValidationResult :=
  let nationality := getValueD metadata "nationality"
  if nationality ≠ "" then
    if VALID_COUNTRIES.contains (pyUpper nationality) then
      [ValidationResult.mk "passport.nationality.valid" true
         s!"Nationality is valid: {nationality}" "error"]
    else
      [ValidationResult.mk "passport.nationality.valid" false
         s!"Nationality may be invalid or unrecognized: {nationality}" "warning"]
  else []

/-! `_validate_document_dates` blocks.  The call sites pass
`metadata.get(k, {}).get("value")`, which is `None` for an absent field;
`None` and `""` are interchangeable here (both falsy, and the messages
interpolate the string only on truthy paths), so the embedding passes
`""` for an absent value. -/

/-- Issue-date format block (lines 590-603). -/
def checkIssueFormat (doc_type issue_date : String) (issueP : Option PDate) :
    List ValidationResult :=
  if issue_date ≠ "" then
    match issueP with
    | some _ =>
      [ValidationResult.mk (doc_type ++ ".date_of_issue.format") true
         s!"Date of issue is valid: {issue_date}" "error"]
    | none =>
      [ValidationResult.mk (doc_type ++ ".date_of_issue.format") false
         s!"Date of issue format is invalid: {issue_date}" "error"]
  else []

/-- Expiry-date format block (lines 605-618). -/
def checkExpiryFormat (doc_type expiry_date : String) (expiryP : Option PDate) :
    List ValidationResult :=
  if expiry_date ≠ "" then
    match expiryP with
    | some _ =>
      [ValidationResult.mk (doc_type ++ ".date_of_expiry.format") true
         s!"Date of expiry is valid: {expiry_date}" "error"]
    | none =>
      [ValidationResult.mk (doc_type ++ ".date_of_expiry.format") false
         s!"Date of expiry format is invalid: {expiry_date}" "error"]
  else []

/-- Expiry-after-issue block (lines 620-633). -/
def checkExpiryAfterIssue (doc_type issue_date expiry_date : String)
    (issueP expiryP : Option PDate) : List ValidationResult :=
  match issueP, expiryP with
  | some issue_dt, some expiry_dt =>
    if toOrdinal expiry_dt > toOrdinal issue_dt then
      [ValidationResult.mk (doc_type ++ ".dates.expiry_after_issue") true
         "Expiry date is after issue date" "error"]
    else
      [ValidationResult.mk (doc_type ++ ".dates.expiry_after_issue") false
         s!"Expiry date ({expiry_date}) is not after issue date ({issue_date})"
         "error"]
  | _, _ => []

/-- Issue-after-birth block (lines 635-648). -/
def checkIssueAfterBirth (doc_type issue_date dob : String)
    (issueP dobP : Option PDate) : List ValidationResult :=
  match issueP, dobP with
  | some issue_dt, some dob_dt =>
    if toOrdinal issue_dt > toOrdinal dob_dt then
      [ValidationResult.mk (doc_type ++ ".dates.issue_after_birth") true
         "Issue date is after date of birth" "error"]
    else
      [ValidationResult.mk (doc_type ++ ".dates.issue_after_birth") false
         s!"Issue date ({issue_date}) is before date of birth ({dob})" "error"]
  | _, _ => []

/-- Validity-period block (lines 650-666).  The bound
`0.5 <= days/365.25 <= 20` is equivalent to `183 ≤ days ≤ 7305`
(`7305 / 365.25 = 20` exactly, and `365.25` is a dyadic rational so the
double division is exact there; `182.625` is not an integer). -/
def checkValidityPeriod (doc_type : String) (issueP expiryP : Option PDate) :
    List ValidationResult :=
  match issueP, expiryP with
  | some issue_dt, some expiry_dt =>
    let days : Int := (toOrdinal expiry_dt : Int) - (toOrdinal issue_dt : Int)
    let v := fmt365Div1dp days
    if 183 ≤ days ∧ days ≤ 7305 then
      [ValidationResult.mk (doc_type ++ ".dates.validity_period") true
         s!"Document validity period is reasonable: ~{v} years" "error"]
    else
      [ValidationResult.mk (doc_type ++ ".dates.validity_period") false
         s!"Document validity period seems unusual: ~{v} years" "warning"]
  | _, _ => []

/-- Not-expired block (lines 668-682): `expiry_dt > datetime.now()` for
the midnight datetime `expiry_dt` holds iff the expiry day ordinal
strictly exceeds today's ordinal. -/
def checkNotExpired (now : Instant) (doc_type expiry_date : String)
    (expiryP : Option PDate) : List ValidationResult :=
  match expiryP with
  | some expiry_dt =>
    if toOrdinal expiry_dt > now.day then
      [ValidationResult.mk (doc_type ++ ".dates.not_expired") true
         s!"Document is not expired (expires {expiry_date})" "error"]
    else
      [ValidationResult.mk (doc_type ++ ".dates.not_expired") false
         s!"Document has expired (expired on {expiry_date})" "warning"]
  | none => []

/-- `DocumentValidator._validate_document_dates`. -/
def validate_document_dates (now : Instant)
    (issue_date expiry_date dob doc_type : String) : List ValidationResult :=
  let issueP := if issue_date ≠ "" then validate_date issue_date else none
  let expiryP := if expiry_date ≠ "" then validate_date expiry_date else none
  let dobP := if dob ≠ "" then validate_date dob else none
  checkIssueFormat doc_type issue_date issueP ++
  checkExpiryFormat doc_type expiry_date expiryP ++
  checkExpiryAfterIssue doc_type issue_date expiry_date issueP expiryP ++
  checkIssueAfterBirth doc_type issue_date dob issueP dobP ++
  checkValidityPeriod doc_type issueP expiryP ++
  checkNotExpired now doc_type expiry_date expiryP

/-- `DocumentValidator._validate_passport`. -/
def validate_passport (now : Instant) (essential_fields metadata : Fields) :
    List ValidationResult :=
  checkPassportNumber metadata ++ checkCountryOfIssue metadata ++
  checkNationality metadata ++
  validate_document_dates now (getValueD metadata "date_of_issue")
    (getValueD metadata "date_of_expiry")
    (getValueD essential_fields "date_of_birth") "passport"

/-- `_validate_license`, DL-number block (lines 442-462). -/
def checkDlNumber (metadata : Fields) : List ValidationResult :=
  let dl_number := getValueD metadata "dl_number"
  if dl_number ≠ "" then
    let len := (cleanAlnum dl_number).length
    if 5 ≤ len ∧ len ≤ 20 then
      [ValidationResult.mk "license.dl_number.length" true
         s!"License number length is valid: {len} characters" "error"]
    else
      [ValidationResult.mk "license.dl_number.length" false
         s!"License number length is unusual: {len} characters" "warning"]
  else
    [ValidationResult.mk "license.dl_number.present" false
       "License number is missing" "error"]

/-- `_validate_license`, address block (lines 464-475). -/
def checkAddress (essential_fields : Fields) : List ValidationResult :=
  let address := getValueD essential_fields "address"
  if address ≠ "" ∧ (pyStrip address).length > 5 then
    [ValidationResult.mk "license.address.present" true
       "Address is present and appears complete" "error"]
  else
    [ValidationResult.mk "license.address.present" false
       "Address is missing or incomplete" "error"]

/-- `_validate_license`, height block (lines 477-498): absent or empty
height emits nothing. -/
def checkHeight (metadata : Fields) : List ValidationResult :=
  let height := getValueD metadata "height"
  if height ≠ "" then
    if heightMatches height then
      [ValidationResult.mk "license.height.format" true
         s!"Height format is valid: {height}" "error"]
    else
      [ValidationResult.mk "license.height.format" false
         s!"Height format may be invalid: {height}" "warning"]
  else []

/-- `_validate_license`, weight block (lines 500-520). -/
def checkWeight (metadata : Fields) : List ValidationResult :=
  let weight := getValueD metadata "weight"
  if weight ≠ "" then
    if weightMatches weight then
      [ValidationResult.mk "license.weight.format" true
         s!"Weight format is valid: {weight}" "error"]
    else
      [ValidationResult.mk "license.weight.format" false
         s!"Weight format may be invalid: {weight}" "warning"]
  else []

/-- `DocumentValidator._validate_license`. -/
def validate_license (now : Instant) (essential_fields metadata : Fields) :
    List ValidationResult :=
  checkDlNumber metadata ++ checkAddress essential_fields ++
  checkHeight metadata ++ checkWeight metadata ++
  validate_document_dates now (getValueD metadata "date_of_issue")
    (getValueD metadata "date_of_expiry")
    (getValueD essential_fields "date_of_birth") "license"

/-- `_validate_other_id`, metadata-present block (lines 535-550). -/
def checkOtherMeta (metadata : Fields) : List ValidationResult :=
  if metadata ≠ [] ∧ metadata.any (fun p => p.2.value ≠ "") then
    [ValidationResult.mk "other_id.metadata.present" true
       "Some metadata fields were successfully extracted" "error"]
  else
    [ValidationResult.mk "other_id.metadata.present" false
       "No metadata could be extracted from this ID" "warning"]

/-- `_validate_other_id`, id-type block (lines 552-566). -/
def checkIdType (metadata : Fields) : List ValidationResult :=
  let id_type := getValueD metadata "id_type"
  if id_type ≠ "" then
    [ValidationResult.mk "other_id.id_type.identified" true
       s!"ID type was identified: {id_type}" "error"]
  else
    [ValidationResult.mk "other_id.id_type.identified" false
       "ID type could not be identified" "warning"]

/-- `DocumentValidator._validate_other_id`: the date checks run only if
the `date_of_issue` or `date_of_expiry` key is present in the metadata
dict. -/
def validate_other_id (now : Instant) (essential_fields metadata : Fields) :
    List ValidationResult :=
  checkOtherMeta metadata ++ checkIdType metadata ++
  (if hasKey metadata "date_of_issue" || hasKey metadata "date_of_expiry" then
     validate_document_dates now (getValueD metadata "date_of_issue")
       (getValueD metadata "date_of_expiry")
       (getValueD essential_fields "date_of_birth") "other_id"
   else [])

/-! ## `DocumentValidator.validate` -/

/-- The `{"validation_run": True, ...}` report dict. -/
structure ValidationReport where
  validation_run : Bool
  total_tests : Nat
  passed : Nat
  failed : Nat
  errors : Nat
  warnings : Nat
  all_tests_passed : Bool
  test_results : List ValidationResult
  error_details : List ValidationResult
  warning_details : List ValidationResult
  deriving DecidableEq, Repr

/-- The two shapes `validate` can return: the skip sentinel
`{"validation_run": False, "message": ...}` or a full report. -/
inductive ValidateOutput where
  | skip (message : String)
  | report (rep : ValidationReport)
  deriving DecidableEq, Repr

/-- The outcome list accumulated in `self.results` during a successful
run: common essential-field checks, then the document-type dispatch
(unknown document types run no type-specific checks). -/
def runChecks (now : Instant) (x : ExtractionResult) : List ValidationResult :=
  validate_essential_fields now x.essential_fields ++
  (if x.document_type = some "passport" then
     validate_passport now x.essential_fields x.metadata
   else if x.document_type = some "drivers_license" then
     validate_license now x.essential_fields x.metadata
   else if x.document_type = some "other_id" then
     validate_other_id now x.essential_fields x.metadata
   else [])

/-- The "Compile results" tail of `validate` (lines 234-251). -/
def compileReport (results : List ValidationResult) : ValidationReport :=
  let passed_tests := (results.filter (fun r => r.passed)).length
  let failed_tests := (results.filter (fun r => !r.passed)).length
  let errors := results.filter (fun r => !r.passed && r.severity == "error")
  let warnings := results.filter (fun r => !r.passed && r.severity == "warning")
  ⟨true, results.length, passed_tests, failed_tests, errors.length,
   warnings.length, failed_tests == 0, results, errors, warnings⟩

/-- `DocumentValidator.validate` as a function of the invocation instant
and the extraction result. -/
def validate (now : Instant) (x : ExtractionResult) : ValidateOutput :=
  if x.status ≠ "success" then
    ValidateOutput.skip "Validation skipped - extraction was not successful"
  else
    ValidateOutput.report (compileReport (runChecks now x))

/-- `validate` together with the instance state: `buffer` is the
`self.results` list left over from any earlier call on the same
`DocumentValidator` instance; the method begins with `self.results = []`,
so the buffer is discarded, and the returned pair carries the new buffer
and the returned dict. -/
def validateRun (_buffer : List ValidationResult) (now : Instant)
    (x : ExtractionResult) : List ValidationResult × ValidateOutput :=
  if x.status ≠ "success" then
    ([], ValidateOutput.skip "Validation skipped - extraction was not successful")
  else
    let rs := runChecks now x
    (rs, ValidateOutput.report (compileReport rs))

/-! ## Infrastructure for the proofs -/

/-- The outcomes whose `test` field equals `n` (how a consumer selects a
named check from `test_results`). -/
def filterTest (rs : List ValidationResult) (n : String) : List ValidationResult :=
  rs.filter (fun r => r.test_name == n)

/-- Invariant of every outcome the validator constructs: the severity is
`"error"` or `"warning"`, and a passing outcome always carries the
constructor default `"error"`. -/
def resOK (r : ValidationResult) : Prop :=
  (r.severity = "error" ∨ r.severity = "warning") ∧
  (r.passed = true → r.severity = "error")

theorem filterTest_append (a b : List ValidationResult) (n : String) :
    filterTest (a ++ b) n = filterTest a n ++ filterTest b n := by
  simp [filterTest, List.filter_append]

theorem filterTest_nil {rs : List ValidationResult} {names : List String}
    (h : ∀ r ∈ rs, r.test_name ∈ names) {n : String} (hn : n ∉ names) :
    filterTest rs n = [] := by
  refine List.filter_eq_nil_iff.mpr ?_
  intro r hr
  simp only [beq_iff_eq]
  intro he
  exact hn (he ▸ h r hr)

theorem string_append_left_cancel {p s t : String} (h : p ++ s = p ++ t) :
    s = t := by
  have hd := congrArg String.data h
  simp only [String.data_append] at hd
  have h2 := List.append_cancel_left hd
  cases s; cases t
  exact congrArg String.mk h2

theorem length_filter_not {α : Type} (p : α → Bool) (l : List α) :
    (l.filter p).length + (l.filter (fun a => !p a)).length = l.length := by
  induction l with
  | nil => simp
  | cons a l ih => cases hp : p a <;> simp [List.filter_cons, hp] <;> omega

/-- Severity block lemmas, one per check block. -/
theorem resOK_checkFullName (ef : Fields) : ∀ r ∈ checkFullName ef, resOK r := by
  intro r hr
  simp only [checkFullName] at hr
  repeat first | split_ifs at hr | split at hr
  all_goals
    simp only [List.mem_cons, List.mem_append, List.mem_singleton,
      List.not_mem_nil, or_false, false_or] at hr
  all_goals try casesm* _ ∨ _
  all_goals subst_vars
  all_goals simp [resOK]

theorem resOK_checkDOB (now : Instant) (ef : Fields) :
    ∀ r ∈ checkDOB now ef, resOK r := by
  intro r hr
  simp only [checkDOB] at hr
  repeat first | split_ifs at hr | split at hr
  all_goals
    simp only [List.mem_cons, List.mem_append, List.mem_singleton,
      List.not_mem_nil, or_false, false_or] at hr
  all_goals try casesm* _ ∨ _
  all_goals subst_vars
  all_goals simp [resOK]

theorem resOK_checkSex (ef : Fields) : ∀ r ∈ checkSex ef, resOK r := by
  intro r hr
  simp only [checkSex] at hr
  repeat first | split_ifs at hr | split at hr
  all_goals
    simp only [List.mem_cons, List.mem_append, List.mem_singleton,
      List.not_mem_nil, or_false, false_or] at hr
  all_goals try casesm* _ ∨ _
  all_goals subst_vars
  all_goals simp [resOK]

theorem resOK_checkPassportNumber (md : Fields) :
    ∀ r ∈ checkPassportNumber md, resOK r := by
  intro r hr
  simp only [checkPassportNumber] at hr
  repeat first | split_ifs at hr | split at hr
  all_goals
    simp only [List.mem_cons, List.mem_append, List.mem_singleton,
      List.not_mem_nil, or_false, false_or] at hr
  all_goals try casesm* _ ∨ _
  all_goals subst_vars
  all_goals simp [resOK]

theorem resOK_checkCountryOfIssue (md : Fields) :
    ∀ r ∈ checkCountryOfIssue md, resOK r := by
  intro r hr
  simp only [checkCountryOfIssue] at hr
  repeat first | split_ifs at hr | split at hr
  all_goals
    simp only [List.mem_cons, List.mem_append, List.mem_singleton,
      List.not_mem_nil, or_false, false_or] at hr
  all_goals try casesm* _ ∨ _
  all_goals subst_vars
  all_goals simp [resOK]

theorem resOK_checkNationality (md : Fields) :
    ∀ r ∈ checkNationality md, resOK r := by
  intro r hr
  simp only [checkNationality] at hr
  repeat first | split_ifs at hr | split at hr
  all_goals
    simp only [List.mem_cons, List.mem_append, List.mem_singleton,
      List.not_mem_nil, or_false, false_or] at hr
  all_goals try casesm* _ ∨ _
  all_goals subst_vars
  all_goals simp [resOK]

theorem resOK_checkIssueFormat (dt s : String) (p : Option PDate) :
    ∀ r ∈ checkIssueFormat dt s p, resOK r := by
  intro r hr
  simp only [checkIssueFormat] at hr
  repeat first | split_ifs at hr | split at hr
  all_goals
    simp only [List.mem_cons, List.mem_append, List.mem_singleton,
      List.not_mem_nil, or_false, false_or] at hr
  all_goals try casesm* _ ∨ _
  all_goals subst_vars
  all_goals simp [resOK]

theorem resOK_checkExpiryFormat (dt s : String) (p : Option PDate) :
    ∀ r ∈ checkExpiryFormat dt s p, resOK r := by
  intro r hr
  simp only [checkExpiryFormat] at hr
  repeat first | split_ifs at hr | split at hr
  all_goals
    simp only [List.mem_cons, List.mem_append, List.mem_singleton,
      List.not_mem_nil, or_false, false_or] at hr
  all_goals try casesm* _ ∨ _
  all_goals subst_vars
  all_goals simp [resOK]

theorem resOK_checkExpiryAfterIssue (dt s1 s2 : String) (p1 p2 : Option PDate) :
    ∀ r ∈ checkExpiryAfterIssue dt s1 s2 p1 p2, resOK r := by
  intro r hr
  simp only [checkExpiryAfterIssue] at hr
  repeat first | split_ifs at hr | split at hr
  all_goals
    simp only [List.mem_cons, List.mem_append, List.mem_singleton,
      List.not_mem_nil, or_false, false_or] at hr
  all_goals try casesm* _ ∨ _
  all_goals subst_vars
  all_goals simp [resOK]

theorem resOK_checkIssueAfterBirth (dt s1 s2 : String) (p1 p2 : Option PDate) :
    ∀ r ∈ checkIssueAfterBirth dt s1 s2 p1 p2, resOK r := by
  intro r hr
  simp only [checkIssueAfterBirth] at hr
  repeat first | split_ifs at hr | split at hr
  all_goals
    simp only [List.mem_cons, List.mem_append, List.mem_singleton,
      List.not_mem_nil, or_false, false_or] at hr
  all_goals try casesm* _ ∨ _
  all_goals subst_vars
  all_goals simp [resOK]

theorem resOK_checkValidityPeriod (dt : String) (p1 p2 : Option PDate) :
    ∀ r ∈ checkValidityPeriod dt p1 p2, resOK r := by
  intro r hr
  simp only [checkValidityPeriod] at hr
  repeat first | split_ifs at hr | split at hr
  all_goals
    simp only [List.mem_cons, List.mem_append, List.mem_singleton,
      List.not_mem_nil, or_false, false_or] at hr
  all_goals try casesm* _ ∨ _
  all_goals subst_vars
  all_goals simp [resOK]

theorem resOK_checkNotExpired (now : Instant) (dt s : String) (p : Option PDate) :
    ∀ r ∈ checkNotExpired now dt s p, resOK r := by
  intro r hr
  simp only [checkNotExpired] at hr
  repeat first | split_ifs at hr | split at hr
  all_goals
    simp only [List.mem_cons, List.mem_append, List.mem_singleton,
      List.not_mem_nil, or_false, false_or] at hr
  all_goals try casesm* _ ∨ _
  all_goals subst_vars
  all_goals simp [resOK]

theorem resOK_checkDlNumber (md : Fields) : ∀ r ∈ checkDlNumber md, resOK r := by
  intro r hr
  simp only [checkDlNumber] at hr
  repeat first | split_ifs at hr | split at hr
  all_goals
    simp only [List.mem_cons, List.mem_append, List.mem_singleton,
      List.not_mem_nil, or_false, false_or] at hr
  all_goals try casesm* _ ∨ _
  all_goals subst_vars
  all_goals simp [resOK]

theorem resOK_checkAddress (ef : Fields) : ∀ r ∈ checkAddress ef, resOK r := by
  intro r hr
  simp only [checkAddress] at hr
  repeat first | split_ifs at hr | split at hr
  all_goals
    simp only [List.mem_cons, List.mem_append, List.mem_singleton,
      List.not_mem_nil, or_false, false_or] at hr
  all_goals try casesm* _ ∨ _
  all_goals subst_vars
  all_goals simp [resOK]

theorem resOK_checkHeight (md : Fields) : ∀ r ∈ checkHeight md, resOK r := by
  intro r hr
  simp only [checkHeight] at hr
  repeat first | split_ifs at hr | split at hr
  all_goals
    simp only [List.mem_cons, List.mem_append, List.mem_singleton,
      List.not_mem_nil, or_false, false_or] at hr
  all_goals try casesm* _ ∨ _
  all_goals subst_vars
  all_goals simp [resOK]

theorem resOK_checkWeight (md : Fields) : ∀ r ∈ checkWeight md, resOK r := by
  intro r hr
  simp only [checkWeight] at hr
  repeat first | split_ifs at hr | split at hr
  all_goals
    simp only [List.mem_cons, List.mem_append, List.mem_singleton,
      List.not_mem_nil, or_false, false_or] at hr
  all_goals try casesm* _ ∨ _
  all_goals subst_vars
  all_goals simp [resOK]

theorem resOK_checkOtherMeta (md : Fields) : ∀ r ∈ checkOtherMeta md, resOK r := by
  intro r hr
  simp only [checkOtherMeta] at hr
  repeat first | split_ifs at hr | split at hr
  all_goals
    simp only [List.mem_cons, List.mem_append, List.mem_singleton,
      List.not_mem_nil, or_false, false_or] at hr
  all_goals try casesm* _ ∨ _
  all_goals subst_vars
  all_goals simp [resOK]

theorem resOK_checkIdType (md : Fields) : ∀ r ∈ checkIdType md, resOK r := by
  intro r hr
  simp only [checkIdType] at hr
  repeat first | split_ifs at hr | split at hr
  all_goals
    simp only [List.mem_cons, List.mem_append, List.mem_singleton,
      List.not_mem_nil, or_false, false_or] at hr
  all_goals try casesm* _ ∨ _
  all_goals subst_vars
  all_goals simp [resOK]

/-- Test-name block lemmas: which test ids each block can emit. -/
theorem names_checkFullName (ef : Fields) : ∀ r ∈ checkFullName ef,
    r.test_name ∈ ["essential_fields.full_name.present",
      "essential_fields.full_name.format"] := by
  intro r hr
  simp only [checkFullName] at hr
  repeat first | split_ifs at hr | split at hr
  all_goals
    simp only [List.mem_cons, List.mem_singleton, List.not_mem_nil,
      or_false, false_or] at hr
  all_goals try casesm* _ ∨ _
  all_goals subst_vars
  all_goals simp

theorem names_checkDOB (now : Instant) (ef : Fields) : ∀ r ∈ checkDOB now ef,
    r.test_name ∈ ["essential_fields.date_of_birth.format",
      "essential_fields.date_of_birth.past",
      "essential_fields.date_of_birth.reasonable",
      "essential_fields.date_of_birth.present"] := by
  intro r hr
  simp only [checkDOB] at hr
  repeat first | split_ifs at hr | split at hr
  all_goals
    simp only [List.mem_cons, List.mem_append, List.mem_singleton,
      List.not_mem_nil, or_false, false_or] at hr
  all_goals try casesm* _ ∨ _
  all_goals subst_vars
  all_goals simp

theorem names_checkSex (ef : Fields) : ∀ r ∈ checkSex ef,
    r.test_name ∈ ["essential_fields.sex.valid", "essential_fields.sex.present"] := by
  intro r hr
  simp only [checkSex] at hr
  repeat first | split_ifs at hr | split at hr
  all_goals
    simp only [List.mem_cons, List.mem_singleton, List.not_mem_nil,
      or_false, false_or] at hr
  all_goals try casesm* _ ∨ _
  all_goals subst_vars
  all_goals simp

theorem names_checkDlNumber (md : Fields) : ∀ r ∈ checkDlNumber md,
    r.test_name ∈ ["license.dl_number.length", "license.dl_number.present"] := by
  intro r hr
  simp only [checkDlNumber] at hr
  repeat first | split_ifs at hr | split at hr
  all_goals
    simp only [List.mem_cons, List.mem_singleton, List.not_mem_nil,
      or_false, false_or] at hr
  all_goals try casesm* _ ∨ _
  all_goals subst_vars
  all_goals simp

theorem names_checkAddress (ef : Fields) : ∀ r ∈ checkAddress ef,
    r.test_name ∈ ["license.address.present"] := by
  intro r hr
  simp only [checkAddress] at hr
  repeat first | split_ifs at hr | split at hr
  all_goals
    simp only [List.mem_cons, List.mem_singleton, List.not_mem_nil,
      or_false, false_or] at hr
  all_goals try casesm* _ ∨ _
  all_goals subst_vars
  all_goals simp

theorem names_checkHeight (md : Fields) : ∀ r ∈ checkHeight md,
    r.test_name ∈ ["license.height.format"] := by
  intro r hr
  simp only [checkHeight] at hr
  repeat first | split_ifs at hr | split at hr
  all_goals
    simp only [List.mem_cons, List.mem_singleton, List.not_mem_nil,
      or_false, false_or] at hr
  all_goals try casesm* _ ∨ _
  all_goals subst_vars
  all_goals simp

theorem names_checkWeight (md : Fields) : ∀ r ∈ checkWeight md,
    r.test_name ∈ ["license.weight.format"] := by
  intro r hr
  simp only [checkWeight] at hr
  repeat first | split_ifs at hr | split at hr
  all_goals
    simp only [List.mem_cons, List.mem_singleton, List.not_mem_nil,
      or_false, false_or] at hr
  all_goals try casesm* _ ∨ _
  all_goals subst_vars
  all_goals simp

theorem names_checkIssueFormat (dt s : String) (p : Option PDate) :
    ∀ r ∈ checkIssueFormat dt s p,
      r.test_name = dt ++ ".date_of_issue.format" := by
  intro r hr
  simp only [checkIssueFormat] at hr
  repeat first | split_ifs at hr | split at hr
  all_goals
    simp only [List.mem_cons, List.mem_singleton, List.not_mem_nil,
      or_false, false_or] at hr
  all_goals try casesm* _ ∨ _
  all_goals subst_vars
  all_goals simp

theorem names_checkExpiryFormat (dt s : String) (p : Option PDate) :
    ∀ r ∈ checkExpiryFormat dt s p,
      r.test_name = dt ++ ".date_of_expiry.format" := by
  intro r hr
  simp only [checkExpiryFormat] at hr
  repeat first | split_ifs at hr | split at hr
  all_goals
    simp only [List.mem_cons, List.mem_singleton, List.not_mem_nil,
      or_false, false_or] at hr
  all_goals try casesm* _ ∨ _
  all_goals subst_vars
  all_goals simp

theorem names_checkExpiryAfterIssue (dt s1 s2 : String) (p1 p2 : Option PDate) :
    ∀ r ∈ checkExpiryAfterIssue dt s1 s2 p1 p2,
      r.test_name = dt ++ ".dates.expiry_after_issue" := by
  intro r hr
  simp only [checkExpiryAfterIssue] at hr
  repeat first | split_ifs at hr | split at hr
  all_goals
    simp only [List.mem_cons, List.mem_singleton, List.not_mem_nil,
      or_false, false_or] at hr
  all_goals try casesm* _ ∨ _
  all_goals subst_vars
  all_goals simp

theorem names_checkIssueAfterBirth (dt s1 s2 : String) (p1 p2 : Option PDate) :
    ∀ r ∈ checkIssueAfterBirth dt s1 s2 p1 p2,
      r.test_name = dt ++ ".dates.issue_after_birth" := by
  intro r hr
  simp only [checkIssueAfterBirth] at hr
  repeat first | split_ifs at hr | split at hr
  all_goals
    simp only [List.mem_cons, List.mem_singleton, List.not_mem_nil,
      or_false, false_or] at hr
  all_goals try casesm* _ ∨ _
  all_goals subst_vars
  all_goals simp

theorem names_checkValidityPeriod (dt : String) (p1 p2 : Option PDate) :
    ∀ r ∈ checkValidityPeriod dt p1 p2,
      r.test_name = dt ++ ".dates.validity_period" := by
  intro r hr
  simp only [checkValidityPeriod] at hr
  repeat first | split_ifs at hr | split at hr
  all_goals
    simp only [List.mem_cons, List.mem_singleton, List.not_mem_nil,
      or_false, false_or] at hr
  all_goals try casesm* _ ∨ _
  all_goals subst_vars
  all_goals simp

theorem names_checkNotExpired (now : Instant) (dt s : String) (p : Option PDate) :
    ∀ r ∈ checkNotExpired now dt s p,
      r.test_name = dt ++ ".dates.not_expired" := by
  intro r hr
  simp only [checkNotExpired] at hr
  repeat first | split_ifs at hr | split at hr
  all_goals
    simp only [List.mem_cons, List.mem_singleton, List.not_mem_nil,
      or_false, false_or] at hr
  all_goals try casesm* _ ∨ _
  all_goals subst_vars
  all_goals simp

theorem resOK_validate_essential_fields (now : Instant) (ef : Fields) :
    ∀ r ∈ validate_essential_fields now ef, resOK r := by
  intro r hr
  simp only [validate_essential_fields, List.mem_append] at hr
  rcases hr with (hr | hr) | hr
  · exact resOK_checkFullName ef r hr
  · exact resOK_checkDOB now ef r hr
  · exact resOK_checkSex ef r hr

theorem resOK_validate_document_dates (now : Instant)
    (issue expiry dob dt : String) :
    ∀ r ∈ validate_document_dates now issue expiry dob dt, resOK r := by
  intro r hr
  simp only [validate_document_dates, List.mem_append] at hr
  rcases hr with ((((hr | hr) | hr) | hr) | hr) | hr
  · exact resOK_checkIssueFormat _ _ _ r hr
  · exact resOK_checkExpiryFormat _ _ _ r hr
  · exact resOK_checkExpiryAfterIssue _ _ _ _ _ r hr
  · exact resOK_checkIssueAfterBirth _ _ _ _ _ r hr
  · exact resOK_checkValidityPeriod _ _ _ r hr
  · exact resOK_checkNotExpired _ _ _ _ r hr

theorem resOK_validate_passport (now : Instant) (ef md : Fields) :
    ∀ r ∈ validate_passport now ef md, resOK r := by
  intro r hr
  simp only [validate_passport, List.mem_append] at hr
  rcases hr with ((hr | hr) | hr) | hr
  · exact resOK_checkPassportNumber md r hr
  · exact resOK_checkCountryOfIssue md r hr
  · exact resOK_checkNationality md r hr
  · exact resOK_validate_document_dates _ _ _ _ _ r hr

theorem resOK_validate_license (now : Instant) (ef md : Fields) :
    ∀ r ∈ validate_license now ef md, resOK r := by
  intro r hr
  simp only [validate_license, List.mem_append] at hr
  rcases hr with (((hr | hr) | hr) | hr) | hr
  · exact resOK_checkDlNumber md r hr
  · exact resOK_checkAddress ef r hr
  · exact resOK_checkHeight md r hr
  · exact resOK_checkWeight md r hr
  · exact resOK_validate_document_dates _ _ _ _ _ r hr

theorem resOK_validate_other_id (now : Instant) (ef md : Fields) :
    ∀ r ∈ validate_other_id now ef md, resOK r := by
  intro r hr
  simp only [validate_other_id, List.mem_append] at hr
  rcases hr with (hr | hr) | hr
  · exact resOK_checkOtherMeta md r hr
  · exact resOK_checkIdType md r hr
  · split_ifs at hr
    · exact resOK_validate_document_dates _ _ _ _ _ r hr
    · simp at hr

theorem err_warn_split (rs : List ValidationResult)
    (h : ∀ r ∈ rs, r.severity = "error" ∨ r.severity = "warning") :
    (rs.filter (fun r => !r.passed && r.severity == "error")).length +
      (rs.filter (fun r => !r.passed && r.severity == "warning")).length =
      (rs.filter (fun r => !r.passed)).length := by
  induction rs with
  | nil => simp
  | cons a l ih =>
    have ha := h a (List.mem_cons_self a l)
    have hl : ∀ r ∈ l, r.severity = "error" ∨ r.severity = "warning" :=
      fun r hr => h r (List.mem_cons_of_mem a hr)
    cases hp : a.passed
    · have ihl := ih hl
      rcases ha with ha | ha <;> simp [List.filter_cons, hp, ha] <;> omega
    · simp only [List.filter_cons, hp, Bool.not_true, Bool.false_and,
        Bool.false_eq_true, if_false]
      exact ih hl

/-- The compiled report of any outcome list satisfying the severity
invariant obeys the count laws. -/
theorem compileReport_wf (rs : List ValidationResult)
    (h : ∀ r ∈ rs, r.severity = "error" ∨ r.severity = "warning") :
    (compileReport rs).validation_run = true ∧
    (compileReport rs).total_tests = (compileReport rs).passed + (compileReport rs).failed ∧
    (compileReport rs).errors + (compileReport rs).warnings = (compileReport rs).failed ∧
    ((compileReport rs).all_tests_passed = true ↔ (compileReport rs).failed = 0) ∧
    (compileReport rs).test_results = rs ∧
    (compileReport rs).errors =
      (rs.filter (fun r => !r.passed && r.severity == "error")).length ∧
    (compileReport rs).warnings =
      (rs.filter (fun r => !r.passed && r.severity == "warning")).length := by
  refine ⟨rfl, ?_, ?_, ?_, rfl, rfl, rfl⟩
  · exact (length_filter_not (fun r => r.passed) rs).symm
  · exact err_warn_split rs h
  · simp [compileReport]

/-- Every outcome of a successful run satisfies the severity invariant. -/
theorem resOK_runChecks (now : Instant) (x : ExtractionResult) :
    ∀ r ∈ runChecks now x, resOK r := by
  intro r hr
  simp only [runChecks, List.mem_append] at hr
  rcases hr with hr | hr
  · exact resOK_validate_essential_fields now x.essential_fields r hr
  · split_ifs at hr
    · exact resOK_validate_passport _ _ _ r hr
    · exact resOK_validate_license _ _ _ r hr
    · exact resOK_validate_other_id _ _ _ r hr
    · simp at hr

theorem filterTest_nil_of_eq {rs : List ValidationResult} {nm : String}
    (h : ∀ r ∈ rs, r.test_name = nm) {n : String} (hn : n ≠ nm) :
    filterTest rs n = [] :=
  @filterTest_nil rs [nm] (fun r hr => by simp [h r hr]) n (by simp [hn])

theorem names_validate_document_dates (now : Instant)
    (issue expiry dob dt : String) :
    ∀ r ∈ validate_document_dates now issue expiry dob dt,
      r.test_name ∈ [dt ++ ".date_of_issue.format",
        dt ++ ".date_of_expiry.format", dt ++ ".dates.expiry_after_issue",
        dt ++ ".dates.issue_after_birth", dt ++ ".dates.validity_period",
        dt ++ ".dates.not_expired"] := by
  intro r hr
  simp only [validate_document_dates, List.mem_append] at hr
  simp only [List.mem_cons, List.mem_singleton, List.not_mem_nil, or_false]
  rcases hr with ((((hr | hr) | hr) | hr) | hr) | hr
  · exact Or.inl (names_checkIssueFormat _ _ _ r hr)
  · exact Or.inr (Or.inl (names_checkExpiryFormat _ _ _ r hr))
  · exact Or.inr (Or.inr (Or.inl (names_checkExpiryAfterIssue _ _ _ _ _ r hr)))
  · exact Or.inr (Or.inr (Or.inr (Or.inl (names_checkIssueAfterBirth _ _ _ _ _ r hr))))
  · exact Or.inr (Or.inr (Or.inr (Or.inr (Or.inl (names_checkValidityPeriod _ _ _ r hr)))))
  · exact Or.inr (Or.inr (Or.inr (Or.inr (Or.inr (names_checkNotExpired _ _ _ _ r hr)))))

/-! ## Concrete fixtures used by witnesses and counterexamples -/

/-- 2024-06-01 00:00:00 (`date(2024, 6, 1).toordinal() = 739038`). -/
def nowJun2024 : Instant := ⟨739038, 0, by decide⟩

/-- An extraction result whose status is not "success". -/
def exFailed : ExtractionResult := ⟨"error", none, [], []⟩

/-- A successful extraction result with no document type and empty field
maps. -/
def exEmptySuccess : ExtractionResult := ⟨"success", none, [], []⟩

/-- The report `validate` compiles for `exEmptySuccess`. -/
def repEmptySuccess : ValidationReport :=
  compileReport (runChecks nowJun2024 exEmptySuccess)

/-! ## Claims -/

/-- C1 counterexample: on a non-success input the validator does return a
skip sentinel and raises nothing, but its message reads "Validation
skipped - extraction was not successful" with a capital V
(validators.py line 216), not the exact lowercase text
"validation skipped - extraction was not successful" asserted by the
claim. -/
theorem claim_C1_counterexample :
    validate nowJun2024 exFailed ≠
      ValidateOutput.skip "validation skipped - extraction was not successful" ∧
    validate nowJun2024 exFailed =
      ValidateOutput.skip "Validation skipped - extraction was not successful" := by
  constructor
  · decide
  · rfl

/-- C1 (amended): for every input whose status is not "success",
`validate` returns exactly the skip sentinel
`{validation_run: false, message: "Validation skipped - extraction was
not successful"}` (the `skip` constructor carries no outcome list and no
counts), and raises no error (the embedding is total). -/
theorem claim_C1_skip_sentinel (now : Instant) (x : ExtractionResult)
    (h : x.status ≠ "success") :
    validate now x =
      ValidateOutput.skip "Validation skipped - extraction was not successful" := by
  unfold validate
  rw [if_pos h]

theorem claim_C1_skip_sentinel_witness :
    validate nowJun2024 exFailed =
      ValidateOutput.skip "Validation skipped - extraction was not successful" :=
  claim_C1_skip_sentinel nowJun2024 exFailed (by decide)

/-- C2: for every extraction result with status "success", the report
returned by `validate` satisfies `total_tests = passed + failed`,
`errors + warnings = failed`, `all_tests_passed ↔ failed = 0`, where
`errors` counts failed outcomes with severity "error" and `warnings`
counts failed outcomes with severity "warning". -/
theorem claim_C2_count_laws (now : Instant) (x : ExtractionResult)
    (h : x.status = "success") :
    ∀ rep, validate now x = ValidateOutput.report rep →
      rep.total_tests = rep.passed + rep.failed ∧
      rep.errors + rep.warnings = rep.failed ∧
      (rep.all_tests_passed = true ↔ rep.failed = 0) ∧
      rep.errors =
        (rep.test_results.filter (fun r => !r.passed && r.severity == "error")).length ∧
      rep.warnings =
        (rep.test_results.filter (fun r => !r.passed && r.severity == "warning")).length := by
  intro rep hrep
  unfold validate at hrep
  rw [if_neg (by simp [h])] at hrep
  injection hrep with h2
  subst h2
  obtain ⟨-, h1, h2, h3, h4, h5, h6⟩ :=
    compileReport_wf (runChecks now x)
      (fun r hr => (resOK_runChecks now x r hr).1)
  exact ⟨h1, h2, h3, by rw [h4, ← h5], by rw [h4, ← h6]⟩

theorem claim_C2_count_laws_witness :
    repEmptySuccess.total_tests = repEmptySuccess.passed + repEmptySuccess.failed ∧
    repEmptySuccess.errors + repEmptySuccess.warnings = repEmptySuccess.failed ∧
    (repEmptySuccess.all_tests_passed = true ↔ repEmptySuccess.failed = 0) ∧
    repEmptySuccess.errors =
      (repEmptySuccess.test_results.filter
        (fun r => !r.passed && r.severity == "error")).length ∧
    repEmptySuccess.warnings =
      (repEmptySuccess.test_results.filter
        (fun r => !r.passed && r.severity == "warning")).length :=
  claim_C2_count_laws nowJun2024 exEmptySuccess rfl repEmptySuccess rfl

/-- C4: for every input of the `ExtractionResult` shape and every
invocation instant, `validate` terminates with either the skip sentinel
or a well-formed report — it is a total function in the embedding, so no
exception escapes; internal date-parse failures surface only as the
`none` sentinel of `validate_date`, mirroring the caught
`(False, None)`. -/
theorem claim_C4_total_no_exceptions (now : Instant) (x : ExtractionResult) :
    (validate now x =
       ValidateOutput.skip "Validation skipped - extraction was not successful") ∨
    (∃ rep, validate now x = ValidateOutput.report rep ∧
       rep.validation_run = true ∧
       rep.total_tests = rep.passed + rep.failed ∧
       rep.errors + rep.warnings = rep.failed ∧
       (rep.all_tests_passed = true ↔ rep.failed = 0)) := by
  by_cases h : x.status = "success"
  · right
    refine ⟨compileReport (runChecks now x), ?_, ?_⟩
    · unfold validate
      rw [if_neg (by simp [h])]
    · obtain ⟨h0, h1, h2, h3, -, -, -⟩ :=
        compileReport_wf (runChecks now x)
          (fun r hr => (resOK_runChecks now x r hr).1)
      exact ⟨h0, h1, h2, h3⟩
  · left
    unfold validate
    rw [if_pos h]

/-- C5: a second `validate` call on the same instance, with the same
input at the same instant, returns a report identical to the first —
including the outcome list in content and order — because the method
begins by resetting `self.results`; more generally the returned value
does not depend on the buffered results of any previous call. -/
theorem claim_C5_idempotent (buffer buffer2 : List ValidationResult)
    (now : Instant) (x : ExtractionResult) :
    (validateRun (validateRun buffer now x).1 now x).2 =
      (validateRun buffer now x).2 ∧
    (validateRun buffer2 now x).2 = (validateRun buffer now x).2 :=
  ⟨rfl, rfl⟩

/-- C10: in every report `validate` returns, a passing outcome always
carries the constructor-default severity "error", and severity "warning"
appears only on failed outcomes — so filtering outcomes by severity
"error" selects (in particular) every passing outcome. -/
theorem claim_C10_passed_severity (now : Instant) (x : ExtractionResult)
    (rep : ValidationReport)
    (hrep : validate now x = ValidateOutput.report rep) :
    ∀ r ∈ rep.test_results,
      (r.passed = true → r.severity = "error") ∧
      (r.severity = "warning" → r.passed = false) := by
  unfold validate at hrep
  by_cases hs : x.status ≠ "success"
  · rw [if_pos hs] at hrep
    cases hrep
  · rw [if_neg hs] at hrep
    cases hrep
    intro r hr
    have hr2 : r ∈ runChecks now x := hr
    have hok := resOK_runChecks now x r hr2
    refine ⟨hok.2, ?_⟩
    intro hw
    cases hpass : r.passed
    · rfl
    · have he := hok.2 hpass
      rw [he] at hw
      exact absurd hw (by decide)

/-- A concrete outcome of the empty-success run, used to witness C10. -/
def sexMissingOutcome : ValidationResult :=
  ⟨"essential_fields.sex.present", false, "Sex is missing", "warning"⟩

theorem claim_C10_passed_severity_witness :
    (sexMissingOutcome.passed = true → sexMissingOutcome.severity = "error") ∧
    (sexMissingOutcome.severity = "warning" → sexMissingOutcome.passed = false) :=
  claim_C10_passed_severity nowJun2024 exEmptySuccess repEmptySuccess rfl
    sexMissingOutcome (by decide)

/-- C6: in the common essential-field checks, a sex value in
{"M", "F", "X"} yields a passing `essential_fields.sex.valid` outcome; a
non-empty value outside that set yields a failed
`essential_fields.sex.valid` outcome with severity "warning"; an empty or
absent value yields a failed `essential_fields.sex.present` outcome with
severity "warning". -/
theorem claim_C6_sex (now : Instant) (ef : Fields) :
    ∀ sex, sex = getValueD ef "sex" →
      ((sex = "M" ∨ sex = "F" ∨ sex = "X") →
        filterTest (validate_essential_fields now ef) "essential_fields.sex.valid" =
          [⟨"essential_fields.sex.valid", true, s!"Sex is valid: {sex}", "error"⟩]) ∧
      (¬(sex = "M" ∨ sex = "F" ∨ sex = "X") → sex ≠ "" →
        filterTest (validate_essential_fields now ef) "essential_fields.sex.valid" =
          [⟨"essential_fields.sex.valid", false,
            s!"Sex value is invalid: {sex} (expected M, F, or X)", "warning"⟩]) ∧
      (sex = "" →
        filterTest (validate_essential_fields now ef) "essential_fields.sex.present" =
          [⟨"essential_fields.sex.present", false, "Sex is missing", "warning"⟩]) := by
  intro sex hsex
  refine ⟨?_, ?_, ?_⟩
  · intro h
    unfold validate_essential_fields
    rw [filterTest_append, filterTest_append]
    rw [filterTest_nil (names_checkFullName ef) (by decide)]
    rw [filterTest_nil (names_checkDOB now ef) (by decide)]
    simp only [checkSex, ← hsex]
    rw [if_pos h]
    simp [filterTest, List.filter]
  · intro h1 h2
    unfold validate_essential_fields
    rw [filterTest_append, filterTest_append]
    rw [filterTest_nil (names_checkFullName ef) (by decide)]
    rw [filterTest_nil (names_checkDOB now ef) (by decide)]
    simp only [checkSex, ← hsex]
    rw [if_neg h1, if_pos h2]
    simp [filterTest, List.filter]
  · intro h
    unfold validate_essential_fields
    rw [filterTest_append, filterTest_append]
    rw [filterTest_nil (names_checkFullName ef) (by decide)]
    rw [filterTest_nil (names_checkDOB now ef) (by decide)]
    simp only [checkSex, ← hsex]
    rw [if_neg (by simp [h]), if_neg (by simp [h])]
    simp [filterTest, List.filter]

theorem claim_C6_sex_witness :
    filterTest (validate_essential_fields nowJun2024 [("sex", ⟨"M"⟩)])
        "essential_fields.sex.valid" =
      [⟨"essential_fields.sex.valid", true, "Sex is valid: M", "error"⟩] ∧
    filterTest (validate_essential_fields nowJun2024 [("sex", ⟨"Male"⟩)])
        "essential_fields.sex.valid" =
      [⟨"essential_fields.sex.valid", false,
        "Sex value is invalid: Male (expected M, F, or X)", "warning"⟩] ∧
    filterTest (validate_essential_fields nowJun2024 [])
        "essential_fields.sex.present" =
      [⟨"essential_fields.sex.present", false, "Sex is missing", "warning"⟩] :=
  ⟨(claim_C6_sex nowJun2024 [("sex", ⟨"M"⟩)] "M" rfl).1 (Or.inl rfl),
   (claim_C6_sex nowJun2024 [("sex", ⟨"Male"⟩)] "Male" rfl).2.1
     (by decide) (by decide),
   (claim_C6_sex nowJun2024 [] "" rfl).2.2 rfl⟩

/-- C8: a full name that is non-empty after trimming yields a passing
`essential_fields.full_name.present` outcome plus an
`essential_fields.full_name.format` outcome that passes iff the trimmed
name splits into at least two whitespace-separated parts and otherwise
fails with severity "warning" and a message stating the part count; an
empty-after-trim name yields only a failed
`essential_fields.full_name.present` outcome with severity "error" and
message "Full name is missing or empty". -/
theorem claim_C8_full_name (now : Instant) (ef : Fields) :
    ∀ nm, nm = pyStrip (getValueD ef "full_name") →
      (nm ≠ "" →
        filterTest (validate_essential_fields now ef)
            "essential_fields.full_name.present" =
          [⟨"essential_fields.full_name.present", true,
            s!"Full name is present: {nm}", "error"⟩] ∧
        ∀ k, k = (pySplit nm).length →
          filterTest (validate_essential_fields now ef)
              "essential_fields.full_name.format" =
            [if k ≥ 2 then
               ⟨"essential_fields.full_name.format", true,
                 "Name has at least first and last name", "error"⟩
             else
               ⟨"essential_fields.full_name.format", false,
                 s!"Name may be incomplete - only {k} part(s) found", "warning"⟩]) ∧
      (nm = "" →
        filterTest (validate_essential_fields now ef)
            "essential_fields.full_name.present" =
          [⟨"essential_fields.full_name.present", false,
            "Full name is missing or empty", "error"⟩] ∧
        filterTest (validate_essential_fields now ef)
            "essential_fields.full_name.format" = []) := by
  intro nm hnm
  constructor
  · intro h
    constructor
    · unfold validate_essential_fields
      rw [filterTest_append, filterTest_append]
      rw [filterTest_nil (names_checkDOB now ef) (by decide)]
      rw [filterTest_nil (names_checkSex ef) (by decide)]
      simp only [checkFullName, ← hnm]
      rw [if_pos h]
      split <;> simp [filterTest, List.filter]
    · intro k hk
      unfold validate_essential_fields
      rw [filterTest_append, filterTest_append]
      rw [filterTest_nil (names_checkDOB now ef) (by decide)]
      rw [filterTest_nil (names_checkSex ef) (by decide)]
      simp only [checkFullName, ← hnm]
      rw [if_pos h]
      subst hk
      split <;> simp_all [filterTest, List.filter]
  · intro h
    constructor <;>
    · unfold validate_essential_fields
      rw [filterTest_append, filterTest_append]
      rw [filterTest_nil (names_checkDOB now ef) (by decide)]
      rw [filterTest_nil (names_checkSex ef) (by decide)]
      simp only [checkFullName, ← hnm]
      rw [if_neg (by simp [h])]
      simp [filterTest, List.filter]

theorem claim_C8_full_name_witness :
    filterTest (validate_essential_fields nowJun2024 [("full_name", ⟨"Madonna"⟩)])
        "essential_fields.full_name.present" =
      [⟨"essential_fields.full_name.present", true,
        "Full name is present: Madonna", "error"⟩] ∧
    filterTest (validate_essential_fields nowJun2024 [("full_name", ⟨"Madonna"⟩)])
        "essential_fields.full_name.format" =
      [⟨"essential_fields.full_name.format", false,
        "Name may be incomplete - only 1 part(s) found", "warning"⟩] ∧
    filterTest (validate_essential_fields nowJun2024 [("full_name", ⟨"  "⟩)])
        "essential_fields.full_name.present" =
      [⟨"essential_fields.full_name.present", false,
        "Full name is missing or empty", "error"⟩] := by
  have h1 := (claim_C8_full_name nowJun2024 [("full_name", ⟨"Madonna"⟩)]
    "Madonna" rfl).1 (by decide)
  have h2 := h1.2 1 rfl
  have h3 := (claim_C8_full_name nowJun2024 [("full_name", ⟨"  "⟩)] "" rfl).2 rfl
  exact ⟨h1.1, by simpa using h2, h3.1⟩

/-- C9: for a driver's license with a non-empty height value, exactly one
`license.height.format` outcome is emitted, passing iff the value matches
one of the patterns `\d+'\s*\d+"`, `\d+\s*ft\s*\d*\s*in`, `\d+\s*cm`
(case-insensitive) and otherwise failing with severity "warning"; an
absent or empty height emits no height outcome. -/
theorem claim_C9_height (now : Instant) (ef md : Fields) :
    ∀ ht, ht = getValueD md "height" →
      (ht ≠ "" →
        filterTest (validate_license now ef md) "license.height.format" =
          [if heightMatches ht then
             ⟨"license.height.format", true,
               s!"Height format is valid: {ht}", "error"⟩
           else
             ⟨"license.height.format", false,
               s!"Height format may be invalid: {ht}", "warning"⟩]) ∧
      (ht = "" →
        filterTest (validate_license now ef md) "license.height.format" = []) := by
  intro ht hht
  have hdrop : filterTest (checkDlNumber md) "license.height.format" = [] :=
    filterTest_nil (names_checkDlNumber md) (by decide)
  have hdrop2 : filterTest (checkAddress ef) "license.height.format" = [] :=
    filterTest_nil (names_checkAddress ef) (by decide)
  have hdrop3 : filterTest (checkWeight md) "license.height.format" = [] :=
    filterTest_nil (names_checkWeight md) (by decide)
  have hdrop4 : filterTest (validate_document_dates now
      (getValueD md "date_of_issue") (getValueD md "date_of_expiry")
      (getValueD ef "date_of_birth") "license") "license.height.format" = [] :=
    filterTest_nil (names_validate_document_dates now _ _ _ "license") (by decide)
  constructor
  · intro h
    unfold validate_license
    rw [filterTest_append, filterTest_append, filterTest_append,
      filterTest_append, hdrop, hdrop2, hdrop3, hdrop4]
    simp only [checkHeight, ← hht]
    rw [if_pos h]
    split <;> simp [filterTest, List.filter]
  · intro h
    unfold validate_license
    rw [filterTest_append, filterTest_append, filterTest_append,
      filterTest_append, hdrop, hdrop2, hdrop3, hdrop4]
    simp only [checkHeight, ← hht]
    rw [if_neg (by simp [h])]
    simp [filterTest]

theorem claim_C9_height_witness :
    filterTest (validate_license nowJun2024 [] [("height", ⟨"170 cm"⟩)])
        "license.height.format" =
      [⟨"license.height.format", true, "Height format is valid: 170 cm",
        "error"⟩] ∧
    filterTest (validate_license nowJun2024 [] [("height", ⟨"tall"⟩)])
        "license.height.format" =
      [⟨"license.height.format", false, "Height format may be invalid: tall",
        "warning"⟩] ∧
    filterTest (validate_license nowJun2024 [] []) "license.height.format" = [] := by
  have h1 := (claim_C9_height nowJun2024 [] [("height", ⟨"170 cm"⟩)]
    "170 cm" rfl).1 (by decide)
  have h2 := (claim_C9_height nowJun2024 [] [("height", ⟨"tall"⟩)]
    "tall" rfl).1 (by decide)
  have h3 := (claim_C9_height nowJun2024 [] [] "" rfl).2 rfl
  exact ⟨h1.trans (by decide), h2.trans (by decide), h3⟩

/-- C7: whenever both an issue date and an expiry date are supplied and
both parse under the date grammar, a single
`{prefix}.dates.expiry_after_issue` outcome is emitted that passes iff
the expiry date is strictly after the issue date and otherwise fails with
severity "error". -/
theorem claim_C7_expiry_after_issue (now : Instant)
    (issue expiry dob dt : String) (di de : PDate)
    (hi : issue ≠ "") (he : expiry ≠ "")
    (hdi : validate_date issue = some di) (hde : validate_date expiry = some de) :
    filterTest (validate_document_dates now issue expiry dob dt)
        (dt ++ ".dates.expiry_after_issue") =
      [if toOrdinal de > toOrdinal di then
         ⟨dt ++ ".dates.expiry_after_issue", true,
           "Expiry date is after issue date", "error"⟩
       else
         ⟨dt ++ ".dates.expiry_after_issue", false,
           s!"Expiry date ({expiry}) is not after issue date ({issue})",
           "error"⟩] := by
  unfold validate_document_dates
  rw [if_pos hi, if_pos he, hdi, hde]
  rw [filterTest_append, filterTest_append, filterTest_append,
    filterTest_append, filterTest_append]
  rw [filterTest_nil_of_eq (names_checkIssueFormat dt issue (some di))
    (fun hEq => by exact absurd (string_append_left_cancel hEq) (by decide))]
  rw [filterTest_nil_of_eq (names_checkExpiryFormat dt expiry (some de))
    (fun hEq => by exact absurd (string_append_left_cancel hEq) (by decide))]
  rw [filterTest_nil_of_eq
    (names_checkIssueAfterBirth dt issue dob (some di)
      (if dob ≠ "" then validate_date dob else none))
    (fun hEq => by exact absurd (string_append_left_cancel hEq) (by decide))]
  rw [filterTest_nil_of_eq (names_checkValidityPeriod dt (some di) (some de))
    (fun hEq => by exact absurd (string_append_left_cancel hEq) (by decide))]
  rw [filterTest_nil_of_eq (names_checkNotExpired now dt expiry (some de))
    (fun hEq => by exact absurd (string_append_left_cancel hEq) (by decide))]
  simp only [checkExpiryAfterIssue]
  split <;> simp [filterTest, List.filter]

theorem claim_C7_expiry_after_issue_witness :
    filterTest (validate_document_dates nowJun2024 "2020-01-01" "2019-01-01"
        "" "license") "license.dates.expiry_after_issue" =
      [⟨"license.dates.expiry_after_issue", false,
        "Expiry date (2019-01-01) is not after issue date (2020-01-01)",
        "error"⟩] := by
  have h := claim_C7_expiry_after_issue nowJun2024 "2020-01-01" "2019-01-01"
    "" "license" ⟨2020, 1, 1⟩ ⟨2019, 1, 1⟩ (by decide) (by decide) rfl rfl
  exact h.trans (by decide)

/-! ## C3: the date grammar actually accepted by `_validate_date` -/

/-- Calendar admissibility of a parsed year/month/day triple, as enforced
by the regex value ranges together with the `datetime` constructor:
year ≥ 1, month 1–12, day 1–31 and at most the month's length. -/
def okYMD (y m d : Nat) : Bool :=
  1 ≤ y && 1 ≤ m && m ≤ 12 && 1 ≤ d && d ≤ 31 && d ≤ daysInMonth y m

/-- ASCII digit with value 1–9 (the regex class `[1-9]`; code points
49–57 are `1`–`9`). -/
def d19 (c : Char) : Bool := 49 ≤ c.toNat && c.toNat ≤ 57

/-- Two-digit month field: two ASCII digits whose value is 1–12 — exactly
the strings matched by the two-character month alternatives `1[0-2]` and
`0[1-9]` (the month group contains no `\d`, so it is ASCII-only). -/
def month2 (a b : Char) : Bool :=
  48 ≤ a.toNat && a.toNat ≤ 57 && 48 ≤ b.toNat && b.toNat ≤ 57 &&
  1 ≤ 10 * (a.toNat - 48) + (b.toNat - 48) &&
  10 * (a.toNat - 48) + (b.toNat - 48) ≤ 12

/-- Two-digit day field together with its calendar check, one disjunct
per two-character day alternative: `0[1-9]` (values 1–9), `[12]\d` (the
second digit may be ANY Unicode decimal digit, values 10–29), and
`3[01]` (values 30–31). -/
def dayOK (y m : Nat) (c d : Char) : Bool :=
  (c.toNat = 48 && 49 ≤ d.toNat && d.toNat ≤ 57 &&
    okYMD y m (d.toNat - 48)) ||
  ((c.toNat = 49 || c.toNat = 50) && isDig d &&
    okYMD y m (10 * (c.toNat - 48) + dv d)) ||
  (c.toNat = 51 && (d.toNat = 48 || d.toNat = 49) &&
    okYMD y m (30 + (d.toNat - 48)))

/-- Written from the amended claim grammar: after the 4-digit year and
the first dash, the remainder is a month field of one or two digits, a
dash, and a day field of one or two digits — nothing after it — with the
month ASCII-only of value 1–12 and the day admissible for the month
(zero-padding permitted but not required; per `[12]\d`, the second digit
of a day 10–29 may be any Unicode decimal digit).  Stated by position:
code point 45 is the dash. -/
def specMD (y : Nat) (rest : List Char) : Bool :=
  match rest with
  | [a, b, c] =>
    b.toNat = 45 && d19 a && d19 c && okYMD y (a.toNat - 48) (c.toNat - 48)
  | [a, b, c, d] =>
    (b.toNat = 45 && d19 a && dayOK y (a.toNat - 48) c d) ||
    (c.toNat = 45 && month2 a b &&
      d19 d && okYMD y (10 * (a.toNat - 48) + (b.toNat - 48)) (d.toNat - 48))
  | [a, b, c, d, e] =>
    c.toNat = 45 && month2 a b &&
      dayOK y (10 * (a.toNat - 48) + (b.toNat - 48)) d e
  | _ => false

/-- Written from the amended claim: a date string is accepted iff it is a
4-digit year (each digit any Unicode decimal digit, per `\d` in `%Y`,
contributing its decimal value), a dash, a 1–2 digit month, a dash, and
a 1–2 digit day forming an admissible calendar date, with no other
characters (in particular no time component). -/
def specDateAccept (s : String) : Bool :=
  match s.data with
  | y1 :: y2 :: y3 :: y4 :: h :: rest =>
    isDig y1 && isDig y2 && isDig y3 && isDig y4 && h.toNat = 45 &&
      specMD (1000 * dv y1 + 100 * dv y2 + 10 * dv y3 + dv y4) rest
  | _ => false

theorem ndTail_le_9 (n : Nat) : (ndTail n).getD 0 ≤ 9 := by
  unfold ndTail
  cases h : ndRuns.find? (fun s => s ≤ n && n ≤ s + 9) with
  | none => simp
  | some s =>
    have hp := List.find?_some h
    simp at hp
    simp
    omega

theorem dv_le_9 (c : Char) : dv c ≤ 9 := by
  unfold dv
  split_ifs with h
  · omega
  · exact ndTail_le_9 c.toNat

set_option maxHeartbeats 4000000 in
theorem parseMD_eq_spec (y : Nat) (rest : List Char) :
    (parseMD y rest).isSome = specMD y rest := by
  rcases rest with _ | ⟨a, _ | ⟨b, _ | ⟨c, _ | ⟨d, _ | ⟨e, _ | ⟨f, tail⟩⟩⟩⟩⟩⟩
  · rfl
  · simp only [parseMD, parseMonth, specMD]
    split_ifs <;> rfl
  · simp only [parseMD, parseMonth, parseDay, specMD]
    split_ifs <;> simp_all
  · have n3 := dv_le_9 c
    simp only [parseMD, parseMonth, parseDay, specMD, okYMD, d19, month2, dayOK]
    split_ifs <;> try simp_all
    all_goals try omega
    all_goals (split_ifs <;> try simp_all)
    all_goals try omega
    all_goals (split_ifs <;> try simp_all)
    all_goals omega
  · have n3 := dv_le_9 c
    have n4 := dv_le_9 d
    simp only [parseMD, parseMonth, parseDay, specMD, okYMD, d19, month2, dayOK]
    split_ifs <;> try simp_all
    all_goals try omega
    all_goals (split_ifs <;> try simp_all)
    all_goals try omega
    all_goals (split_ifs <;> try simp_all)
    all_goals omega
  · have n4 := dv_le_9 d
    have n5 := dv_le_9 e
    simp only [parseMD, parseMonth, parseDay, specMD, okYMD, d19, month2, dayOK]
    split_ifs <;> try simp_all
    all_goals try omega
    all_goals (split_ifs <;> try simp_all)
    all_goals try omega
    all_goals (split_ifs <;> try simp_all)
    all_goals omega
  · simp only [parseMD, parseMonth, parseDay, specMD]
    split_ifs <;> try simp_all
    all_goals (split_ifs <;> try simp_all)
    all_goals (split_ifs <;> simp_all)

/-- C3 counterexample: `strptime`'s `%m` and `%d` regexes accept
non-zero-padded month and day fields, so `_validate_date` accepts
"1990-5-15" (returning the same date as "1990-05-15") instead of
rejecting it as the claim asserts; the `\d` slots even accept non-ASCII
Unicode decimal digits, as in the Arabic-Indic year "١٩٩٠-05-15". -/
theorem claim_C3_counterexample :
    validate_date "1990-5-15" = some ⟨1990, 5, 15⟩ ∧
    validate_date "١٩٩٠-05-15" = some ⟨1990, 5, 15⟩ ∧
    validate_date "1990-05-15" = some ⟨1990, 5, 15⟩ := by
  refine ⟨rfl, rfl, rfl⟩

/-- C3 (amended): the date parser accepts a string iff it consists of a
4-digit year (each digit any Unicode decimal digit, contributing its
decimal value), a dash, a month of one or two ASCII digits with value
1–12, a dash, and a day of one or two digits admissible for that month
and year (year ≥ 1) — where, per the regex branch `[12]\d`, the second
digit of a day 10–29 may be any Unicode decimal digit — with nothing
before or after; zero-padding is permitted but not required, and no
fallback format is attempted. -/
theorem claim_C3_date_grammar (s : String) :
    (validate_date s).isSome = specDateAccept s := by
  rcases s with ⟨data⟩
  rcases data with _ | ⟨y1, _ | ⟨y2, _ | ⟨y3, _ | ⟨y4, _ | ⟨h5, rest⟩⟩⟩⟩⟩
  · rfl
  · rfl
  · rfl
  · rfl
  · rfl
  · simp only [validate_date, specDateAccept]
    split_ifs with hc
    · rw [parseMD_eq_spec]
      obtain ⟨h1, h2, h3, h4, h5⟩ := hc
      simp [h1, h2, h3, h4, h5]
    · simp only [Option.isSome_none]
      symm
      rw [Bool.eq_false_iff]
      intro hfalse
      simp only [Bool.and_eq_true, decide_eq_true_eq] at hfalse
      exact hc ⟨hfalse.1.1.1.1.1, hfalse.1.1.1.1.2, hfalse.1.1.1.2,
        hfalse.1.1.2, hfalse.1.2⟩

end KYC
